import Mathlib

/-!
Verification of the DPIu-flyers-scraping pipeline specification against a
shallow embedding of the repository source.

Conventions used throughout:
* Machine floats never matter for the claims; coordinates are carried as
  scaled integers inside opaque payload records.
* All sleeps are modelled in tenths of a second (deciseconds), so the
  source value `(2 ** retry) * 0.5` seconds becomes `5 * 2 ^ retry` and
  `time.sleep(1)` becomes `10`.
* Network and page behaviour is abstracted as an environment argument
  (one observable behaviour per attempt); the embedded control flow is
  translated line by line from the Python source.
-/

/-! ## Embedding of src/shop_geocode.py -/

/-- `MAX_RETRIES = 3` from src/shop_geocode.py. -/
def MAX_RETRIES : Nat := 3

/-- Payload of a successful geocoding result: the fields of
`data.results[0]` that `geocode_address` reads.  Coordinates are scaled
integers (floats carry no claim content). -/
structure GeoResult where
  formattedAddress : String
  lat : Int
  lng : Int
  placeId : String
  deriving Repr, DecidableEq

/-- One attempt's observable outcome of `requests.get` + `.json()` in
`geocode_address`:
* `success results` — HTTP succeeded and the body status was the string OK
  (the results list may be empty);
* `errStatus s m` — HTTP succeeded and the body status was `s ≠ OK` with
  error message `m`;
* `exn m` — the request (or response parsing) raised an exception. -/
inductive ApiResponse where
  | success (results : List GeoResult)
  | errStatus (status : String) (errorMessage : String)
  | exn (msg : String)
  deriving Repr, DecidableEq

/-- The dictionary returned by `geocode_address`, keyed by constructor:
`success r` carries the full field projection and geocode_status SUCCESS;
`failed s m` is the non-OK-status return; `error m` the exception return. -/
inductive GeoReturn where
  | success (r : GeoResult)
  | failed (status : String) (errorMessage : String)
  | error (msg : String)
  deriving Repr, DecidableEq

/-- The string stored under the key `geocode_status` of the returned
dictionary (`SUCCESS`, `FAILED: {status}: {error_message}`, or
`ERROR: {str(e)}`). -/
def GeoReturn.geocodeStatus : GeoReturn → String
  | .success _ => "SUCCESS"
  | .failed s m => "FAILED: " ++ s ++ ": " ++ m
  | .error m => "ERROR: " ++ m

/-- The membership test `data['status'] in ['OVER_QUERY_LIMIT', 'UNKNOWN_ERROR']`
from src/shop_geocode.py line 84. -/
def retryableStatus (s : String) : Bool :=
  s = "OVER_QUERY_LIMIT" || s = "UNKNOWN_ERROR"

/-- Shallow embedding of `geocode_address` (src/shop_geocode.py lines 49-99).
`resp i` is the API behaviour observed by the attempt carrying `retry = i`
(the function recurses with `retry+1`, so attempt number and retry counter
coincide).  Returns `(returned dictionary, number of attempts performed,
list of waits slept before each recursive retry, in deciseconds)`.

Control flow mirrored from source:
* body status OK with a nonempty results list → SUCCESS dictionary;
* body status OK with an empty results list → `data['results'][0]` raises
  IndexError, caught by the generic `except` handler: sleep 1 s and retry
  while `retry < MAX_RETRIES`, else return the ERROR dictionary;
* body status ≠ OK: retry with wait `(2 ** retry) * 0.5` s only when
  `retry < MAX_RETRIES` and the status is OVER_QUERY_LIMIT or
  UNKNOWN_ERROR; otherwise return the FAILED dictionary at once;
* exception from the request: sleep 1 s and retry while
  `retry < MAX_RETRIES`, else return the ERROR dictionary. -/
def geocodeAddress (resp : Nat → ApiResponse) (retry : Nat) :
    GeoReturn × Nat × List Nat :=
  match resp retry with
  | ApiResponse.success (r :: _) => (GeoReturn.success r, 1, [])
  | ApiResponse.success [] =>
      if _h : retry < MAX_RETRIES then
        let out := geocodeAddress resp (retry + 1)
        (out.1, out.2.1 + 1, 10 :: out.2.2)
      else (GeoReturn.error "list index out of range", 1, [])
  | ApiResponse.errStatus s m =>
      if _h : retry < MAX_RETRIES ∧ retryableStatus s = true then
        let out := geocodeAddress resp (retry + 1)
        (out.1, out.2.1 + 1, 5 * 2 ^ retry :: out.2.2)
      else (GeoReturn.failed s m, 1, [])
  | ApiResponse.exn m =>
      if _h : retry < MAX_RETRIES then
        let out := geocodeAddress resp (retry + 1)
        (out.1, out.2.1 + 1, 10 :: out.2.2)
      else (GeoReturn.error m, 1, [])
termination_by MAX_RETRIES + 1 - retry
decreasing_by
  all_goals simp only [MAX_RETRIES] at *
  all_goals omega

/-- A response that the source code retries (consumes one attempt and
recurses) whenever budget remains: an exception, an empty OK results list
(IndexError path), or a retryable non-OK status. -/
def retriedFailure : ApiResponse → Bool
  | .success [] => true
  | .success (_ :: _) => false
  | .errStatus s _ => retryableStatus s
  | .exn _ => true

/-- Wait (deciseconds) the source sleeps before the retry that follows
failure response `a` observed at retry counter `i`: exponential
`0.5 * 2 ^ i` s for a retryable body status, flat 1 s for the exception
handler path. -/
def failWait : ApiResponse → Nat → Nat
  | .errStatus _ _, i => 5 * 2 ^ i
  | _, _ => 10

/-- Sample geocoding payload used by concrete witnesses. -/
def geoR0 : GeoResult :=
  { formattedAddress := "Via Roma 1, 20121 Milano MI, Italy"
    lat := 45464, lng := 9190, placeId := "pid0" }

/-- Environment for the C2 counterexample: the request raises twice
(timeouts), then the third attempt succeeds. -/
def respExnTwice : Nat → ApiResponse
  | 0 => ApiResponse.exn "timeout"
  | 1 => ApiResponse.exn "timeout"
  | _ => ApiResponse.success [geoR0]

/-- Environment for the C2 witness: one OVER_QUERY_LIMIT status, then
success. -/
def respOqlOnce : Nat → ApiResponse
  | 0 => ApiResponse.errStatus "OVER_QUERY_LIMIT" ""
  | _ => ApiResponse.success [geoR0]

/-! ## Embedding of src/shop_scrape.py: rows, merger, checkpoint store -/

/-- One row collected by `scrape_dpiu_stores` and persisted in a per-city
temp CSV: `{'City', 'Shop Name', 'Link', 'Address'}`. -/
structure StoreRow where
  city : String
  shopName : String
  link : String
  address : String
  deriving Repr, DecidableEq

/-- The natural key the spec deduplicates FinalRecords by (a normalized
address for these rows). -/
def naturalKey (r : StoreRow) : String := r.address

/-- Shallow embedding of `merge_temp_files` (src/shop_scrape.py lines
136-182).  The argument lists the checkpoint files in directory-listing
order; `some rows` is a readable file, `none` a file whose `pd.read_csv`
raised (skipped by `continue`).  Returns `none` when there are no files or
no readable file (the Python function returns False), otherwise the
concatenation of all readable files (`pd.concat(dfs, ignore_index=True)`).
The source performs no deduplication. -/
def merge_temp_files (files : List (Option (List StoreRow))) :
    Option (List StoreRow) :=
  if files.isEmpty then none
  else
    let dfs := files.filterMap id
    if dfs.isEmpty then none else some dfs.flatten

/-- Shallow embedding of pandas `drop_duplicates(subset=key, keep=first)`
as called in src/shop_details.py line 257: keep each row whose key has not
appeared in an earlier row. -/
def drop_duplicates {α β : Type} [DecidableEq β] (key : α → β) :
    List α → List α
  | [] => []
  | x :: xs => x :: drop_duplicates key (xs.filter (fun y => key y ≠ key x))
termination_by l => l.length
decreasing_by
  simp only [List.length_cons]
  exact Nat.lt_succ_of_le (List.length_filter_le _ _)

/-- Filesystem operation emitted by a checkpoint writer.  `write` is an
ordinary (non-atomic) file write — a concurrent reader of that path can
observe a half-written file; `replace` is `os.replace`, atomic. -/
inductive FsOp (α : Type) where
  | write (path : String) (content : List α)
  | replace (src dst : String)
  deriving Repr, DecidableEq

/-- A filesystem: an association list from path to content. -/
def Fs (α : Type) : Type := List (String × List α)

/-- Content currently stored at `p`. -/
def fsGet {α : Type} (fs : Fs α) (p : String) : Option (List α) :=
  (fs.find? (fun e => e.1 == p)).map (·.2)

/-- Store `c` at `p`, replacing (not appending to) any previous binding. -/
def fsSet {α : Type} (fs : Fs α) (p : String) (c : List α) : Fs α :=
  (p, c) :: fs.filter (fun e => e.1 != p)

/-- Remove the binding at `p`. -/
def fsRemove {α : Type} (fs : Fs α) (p : String) : Fs α :=
  fs.filter (fun e => e.1 != p)

/-- Effect of one operation on the filesystem.  `replace src dst` moves
the content of `src` over `dst` wholesale (`os.replace` semantics). -/
def applyOp {α : Type} (fs : Fs α) : FsOp α → Fs α
  | .write p c => fsSet fs p c
  | .replace src dst =>
      match fsGet fs src with
      | some c => fsSet (fsRemove fs src) dst c
      | none => fs

/-- Effect of a whole operation trace. -/
def applyOps {α : Type} (fs : Fs α) (ops : List (FsOp α)) : Fs α :=
  ops.foldl applyOp fs

/-- Final checkpoint path for a city:
`os.path.join(TEMP_DIR, f"temp_{city}_shops.csv")`. -/
def temp_file (city : String) : String :=
  "temp_data/temp_" ++ city ++ "_shops.csv"

/-- Operation trace of `save_temp_results` (src/shop_scrape.py lines
116-134): nothing when `stores` is empty (the function returns False),
otherwise write the full content to `temp_file + .tmp` and
`os.replace` it onto the final path. -/
def save_temp_results_ops (city : String) (stores : List StoreRow) :
    List (FsOp StoreRow) :=
  if stores.isEmpty then []
  else [FsOp.write (temp_file city ++ ".tmp") stores,
        FsOp.replace (temp_file city ++ ".tmp") (temp_file city)]

/-- A geocoded output row persisted by src/shop_geocode.py (original row
columns merged with the geocode result columns; only the shape matters). -/
structure GeocodedRow where
  address : String
  geocodeStatus : String
  deriving Repr, DecidableEq

/-- `OUTPUT_CSV` from src/shop_geocode.py. -/
def OUTPUT_CSV : String := "scrape_data/pam_details_geocode.csv"

/-- Operation trace of the per-batch intermediate save in
src/shop_geocode.py `main` (lines 142-144):
`pd.concat(all_results).to_csv(OUTPUT_CSV, index=False)` — a direct write
to the final path, with no temporary file and no rename. -/
def geocode_checkpoint_ops (rows : List GeocodedRow) : List (FsOp GeocodedRow) :=
  [FsOp.write OUTPUT_CSV rows]

/-- Does this operation write the final path directly (non-atomically)? -/
def writesFinalDirectly {α : Type} (final : String) : FsOp α → Bool
  | .write p _ => p == final
  | .replace _ _ => false

/-- A trace is atomic with respect to `final` when no operation writes
`final` directly: content only ever reaches `final` through an atomic
`replace`, so no reader of `final` observes a half-written file. -/
def atomicAt {α : Type} (final : String) (ops : List (FsOp α)) : Bool :=
  ops.all (fun op => !(writesFinalDirectly final op))

/-- Sample checkpoint rows sharing the natural key used in the spec
scenario. -/
def rowMainStMilano : StoreRow :=
  { city := "Milano", shopName := "D-Piu Milano", link := "l1",
    address := "123 Main St" }

/-- Second sample row with the same natural key, from a later chunk. -/
def rowMainStRoma : StoreRow :=
  { city := "Roma", shopName := "D-Piu Roma", link := "l2",
    address := "123 Main St" }

/-- Pair of rows with a shared key for the C8 counterexample. -/
def rowOakTorino : StoreRow :=
  { city := "Torino", shopName := "D-Piu Torino", link := "l3",
    address := "456 Oak Ave" }

/-- Second row sharing the key `456 Oak Ave`, from a later chunk. -/
def rowOakBari : StoreRow :=
  { city := "Bari", shopName := "D-Piu Bari", link := "l4",
    address := "456 Oak Ave" }

/-! ## Embedding of `scrape_dpiu_stores` (src/shop_scrape.py lines 183-287):
driver lifecycle of one extraction session -/

/-- Observable behaviour of one iteration of the retry loop in
`scrape_dpiu_stores`:
* `setupFail` — `setup_driver()` raises (the `driver` variable keeps its
  previous value);
* `raiseAfterSetup` — the driver is created, then page load or the search
  raises inside the `try` block;
* `noResults` — the driver is created and the no-results / timeout branch
  executes `return False` inside the `try` block;
* `found stores` — the driver is created, the store list is parsed into
  `stores`, and the loop `break`s. -/
inductive AttemptBx where
  | setupFail
  | raiseAfterSetup
  | noResults
  | found (stores : List StoreRow)
  deriving Repr, DecidableEq

/-- `max_retries = 2` local to `scrape_dpiu_stores`. -/
def MAX_SCRAPE_RETRIES : Nat := 2

/-- Session state: the Python `driver` variable (holding a driver id, and
never reset to `None` after a quit), a counter of created drivers, and the
append-only log of every `driver.quit()` invocation (by driver id). -/
structure ScrapeState where
  driver : Option Nat
  nextId : Nat
  quits : List Nat
  deriving Repr, DecidableEq

/-- `if driver: driver.quit()` — logs a quit invocation for the current
driver; the variable keeps pointing at the (now quit) driver, exactly as
in the source. -/
def quitIfSome (st : ScrapeState) : ScrapeState :=
  match st.driver with
  | some d => { st with quits := st.quits ++ [d] }
  | none => st

/-- `driver = setup_driver()` succeeded: bind a fresh driver id. -/
def newDriver (st : ScrapeState) : ScrapeState :=
  { st with driver := some st.nextId, nextId := st.nextId + 1 }

/-- Result of `scrape_dpiu_stores`: the stores were saved (returned via
`save_temp_results`), or the function returned False. -/
inductive ScrapeResult where
  | savedStores (stores : List StoreRow)
  | noneFound
  deriving Repr, DecidableEq

/-- One-to-one embedding of the `while retry_count < max_retries` loop of
`scrape_dpiu_stores`.  `bx rc` is the behaviour of the iteration entered
with `retry_count = rc`.  Python control flow mirrored exactly:
* on an exception (either `setup_driver` raising, or a raise after the
  driver was created), the `except` block increments the counter and quits
  the driver if the variable is truthy, and the `finally` block then quits
  it again — on `return False` and on `continue` alike;
* on `return False` inside the `try` (no results) and on `break` (stores
  found) the `finally` block quits the driver once;
* `stores` is only non-empty on the `break` path, and after the loop the
  function saves and returns them when non-empty. -/
def scrapeLoop (bx : Nat → AttemptBx) (rc : Nat) (st : ScrapeState) :
    ScrapeResult × ScrapeState :=
  if _h : rc < MAX_SCRAPE_RETRIES then
    match bx rc with
    | AttemptBx.setupFail =>
        let st2 := quitIfSome (quitIfSome st)
        if rc + 1 < MAX_SCRAPE_RETRIES then scrapeLoop bx (rc + 1) st2
        else (ScrapeResult.noneFound, st2)
    | AttemptBx.raiseAfterSetup =>
        let st2 := quitIfSome (quitIfSome (newDriver st))
        if rc + 1 < MAX_SCRAPE_RETRIES then scrapeLoop bx (rc + 1) st2
        else (ScrapeResult.noneFound, st2)
    | AttemptBx.noResults =>
        (ScrapeResult.noneFound, quitIfSome (newDriver st))
    | AttemptBx.found stores =>
        let st1 := quitIfSome (newDriver st)
        (if stores.isEmpty then ScrapeResult.noneFound
         else ScrapeResult.savedStores stores, st1)
  else (ScrapeResult.noneFound, st)
termination_by MAX_SCRAPE_RETRIES - rc
decreasing_by
  all_goals simp only [MAX_SCRAPE_RETRIES] at *
  all_goals omega

/-- Entry point of `scrape_dpiu_stores`: `driver = None`, `retry_count = 0`,
no quits logged yet. -/
def scrape_dpiu_stores (bx : Nat → AttemptBx) : ScrapeResult × ScrapeState :=
  scrapeLoop bx 0 { driver := none, nextId := 0, quits := [] }

/-- Behaviour for the C5 counterexample: the first attempt raises after
driver creation, the second attempt succeeds. -/
def bxRaiseThenFound : Nat → AttemptBx
  | 0 => AttemptBx.raiseAfterSetup
  | _ => AttemptBx.found [rowMainStMilano]

/-! ## Embedding of src/flyer_scraping.py: worker, task source, run
skeleton -/

/-- A validated input row of the flyer scraper (after the `dropna`). -/
structure FlyerRow where
  shopId : String
  storeUrl : String
  deriving Repr, DecidableEq

/-- Observable behaviour of `process_store` for one store:
* `noCarousel` — the carousel wait raised, early `return result` with the
  initial status;
* `flyers pdfs` — the carousel was found and `pdfs` is the list of PDF
  links collected over all flyer pages (per-flyer errors already skipped
  by the inner `continue`);
* `raiseOuter m` — an unexpected exception reached the outer handler. -/
inductive ItemBx where
  | noCarousel
  | flyers (pdfs : List String)
  | raiseOuter (msg : String)
  deriving Repr, DecidableEq

/-- The result dictionary built by `process_store`. -/
structure FlyerResult where
  shop_id : String
  store_url : String
  pdf_links : List String
  status : String
  deriving Repr, DecidableEq

/-- Shallow embedding of `process_store` (src/flyer_scraping.py lines
49-127).  Total: every path, including the exception path, produces a
result value with a status tag; nothing propagates to the caller. -/
def process_store (b : ItemBx) (r : FlyerRow) : FlyerResult :=
  match b with
  | ItemBx.noCarousel =>
      { shop_id := r.shopId, store_url := r.storeUrl, pdf_links := [],
        status := "No flyers" }
  | ItemBx.flyers pdfs =>
      if pdfs.isEmpty then
        { shop_id := r.shopId, store_url := r.storeUrl, pdf_links := [],
          status := "No flyers" }
      else
        { shop_id := r.shopId, store_url := r.storeUrl, pdf_links := pdfs,
          status := "success" }
  | ItemBx.raiseOuter _ =>
      { shop_id := r.shopId, store_url := r.storeUrl, pdf_links := [],
        status := "error" }

/-- How the `try` body of `save_results` (src/flyer_scraping.py lines
133-161) terminates: it catches every CSV-write exception internally —
primary file, then a timestamped fallback file, then logging the rows. -/
inductive SaveOutcome where
  | savedPrimary
  | savedFallback
  | loggedOnly
  deriving Repr, DecidableEq

/-- Embedding of `save_results` (src/flyer_scraping.py lines 129-161)
over three storage fallibility flags.  The call
`os.makedirs(OUTPUT_DIR, exist_ok=True)` at line 131 sits OUTSIDE the
`try` block, so when it raises the exception propagates to the caller:
that is the `none` outcome.  Every CSV-write failure inside the `try` is
handled internally (fallback file, then logging) and cannot raise. -/
def save_results (makedirsOk primaryOk fallbackOk : Bool) :
    Option SaveOutcome :=
  if ¬ makedirsOk then none
  else if primaryOk then some SaveOutcome.savedPrimary
  else if fallbackOk then some SaveOutcome.savedFallback
  else some SaveOutcome.loggedOnly

/-- Cause of an aborted run of `main` (an exception re-raised out of
`main`): the input CSV load failed, `setup_driver()` failed, or the final
`save_results` call raised (its `os.makedirs` step). -/
inductive AbortCause where
  | loadFailure
  | driverInitFailure
  | storageFailure
  deriving Repr, DecidableEq

/-- Terminal outcome of one run of `main`. -/
inductive RunOutcome where
  | aborted (c : AbortCause)
  | completed (results : List FlyerResult) (save : SaveOutcome)
  deriving Repr, DecidableEq

/-- The failure environment of one run of `main`. -/
structure RunWorld where
  loadOk : Bool
  rows : List (FlyerRow × ItemBx)
  setupOk : Bool
  makedirsOk : Bool
  primarySaveOk : Bool
  fallbackSaveOk : Bool

/-- Shallow embedding of `main` (src/flyer_scraping.py lines 163-213):
a load failure re-raises (abort); a `setup_driver` failure re-raises
(abort); otherwise every row is processed by `process_store` — whose
failures are all captured as status values — and the final `save_results`
call runs inside `main`'s re-raising outer `try`, so if its `os.makedirs`
step raises, the run aborts with a storage failure; its CSV-write
failures are absorbed internally and the run completes.  (The periodic
every-10-rows saves call the same `save_results`, but from INSIDE the
per-item `try/except`, so an exception there is caught and recorded as an
item-level error outcome rather than aborting; only the final save can
propagate, and it is the one modelled here.) -/
def flyer_main (w : RunWorld) : RunOutcome :=
  if ¬ w.loadOk then RunOutcome.aborted AbortCause.loadFailure
  else if ¬ w.setupOk then RunOutcome.aborted AbortCause.driverInitFailure
  else
    match save_results w.makedirsOk w.primarySaveOk w.fallbackSaveOk with
    | none => RunOutcome.aborted AbortCause.storageFailure
    | some sv =>
        RunOutcome.completed (w.rows.map (fun p => process_store p.2 p.1)) sv

/-! ## Embedding of the task-source load in src/flyer_scraping.py `main`
(lines 168-175) -/

/-- A raw input row before validation: the identity and query columns may
be null. -/
structure InputRow where
  shopId : Option String
  storeUrl : Option String
  deriving Repr, DecidableEq

/-- Row predicate of `data.dropna(subset=[Shop ID, Store URL])`: the row
survives exactly when both columns are non-null. -/
def dropnaRow (r : InputRow) : Bool :=
  r.shopId.isSome && r.storeUrl.isSome

/-- Shallow embedding of the load step: drop rows failing `dropnaRow`,
and return the dispatched rows together with the number reported by
`logger.info(f"Loaded {len(data)} valid store records")` — the length of
the surviving frame. -/
def load_store_data (rows : List InputRow) : List InputRow × Nat :=
  let kept := rows.filter dropnaRow
  (kept, kept.length)

/-- Concrete input for the C9 counterexample: two valid rows, one row with
a null Store URL. -/
def rowsC9 : List InputRow :=
  [ { shopId := some "s1", storeUrl := some "u1" },
    { shopId := some "s2", storeUrl := some "u2" },
    { shopId := some "s3", storeUrl := none } ]

/-! ## Helper lemmas (shared) -/

/-- A fresh temporary path never equals the final path it extends. -/
theorem tmp_ne_final (s : String) : s ++ ".tmp" ≠ s := by
  intro hcontra
  have hlen := congrArg String.length hcontra
  rw [String.length_append] at hlen
  have h4 : (".tmp" : String).length = 4 := rfl
  omega

/-- Reading back the path just set returns exactly the content written. -/
theorem fsGet_fsSet_self {α : Type} (fs : Fs α) (p : String) (c : List α) :
    fsGet (fsSet fs p c) p = some c := by
  unfold fsGet fsSet
  rw [List.find?_cons_of_pos _ (by simp)]
  rfl

/-- Every survivor of `drop_duplicates` is an element of the input. -/
theorem mem_of_mem_dd {α β : Type} [DecidableEq β] (key : α → β) :
    ∀ (l : List α) (x : α), x ∈ drop_duplicates key l → x ∈ l
  | [], x, h => by simp [drop_duplicates] at h
  | a :: l, x, h => by
      rw [drop_duplicates] at h
      rcases List.mem_cons.mp h with h1 | h2
      · exact h1 ▸ List.mem_cons_self a l
      · exact List.mem_cons_of_mem _
          (List.mem_of_mem_filter (mem_of_mem_dd key _ x h2))
termination_by l => l.length
decreasing_by
  simp only [List.length_cons]
  exact Nat.lt_succ_of_le (List.length_filter_le _ _)

/-- Retry-loop run lemma for `geocodeAddress`, from an arbitrary starting
retry counter `j`: `k` retried failures followed by a success yield that
success, `k + 1` attempts, and the source's per-failure waits. -/
theorem geocode_run_of_retried (k : Nat) :
    ∀ (resp : Nat → ApiResponse) (j : Nat) (r : GeoResult)
      (rest : List GeoResult), j + k ≤ MAX_RETRIES →
    (∀ i, j ≤ i → i < j + k → retriedFailure (resp i) = true) →
    resp (j + k) = ApiResponse.success (r :: rest) →
    geocodeAddress resp j
      = (GeoReturn.success r, k + 1,
         (List.range k).map (fun i => failWait (resp (j + i)) (j + i))) := by
  induction k with
  | zero =>
      intro resp j r rest _ _ hsucc
      simp only [Nat.add_zero] at hsucc
      rw [geocodeAddress.eq_def, hsucc]
      simp
  | succ k ih =>
      intro resp j r rest hk hfail hsucc
      have hj : j < MAX_RETRIES := by
        simp only [MAX_RETRIES] at hk ⊢; omega
      have hfj : retriedFailure (resp j) = true :=
        hfail j le_rfl (by omega)
      have hrec := ih resp (j + 1) r rest (by omega)
        (fun i hi1 hi2 => hfail i (by omega) (by omega))
        (by rw [show j + 1 + k = j + (k + 1) by omega]; exact hsucc)
      have hshift : ∀ i : Nat, j + 1 + i = j + (i + 1) := by omega
      cases hresp : resp j with
      | success results =>
          cases results with
          | nil =>
              rw [geocodeAddress.eq_def, hresp]
              simp only [hj, dif_pos, hrec]
              rw [List.range_succ_eq_map, List.map_cons, List.map_map]
              simp [hresp, failWait, Function.comp_def, hshift]
          | cons a as =>
              rw [hresp] at hfj
              simp [retriedFailure] at hfj
      | errStatus s m =>
          have hs : retryableStatus s = true := by
            rw [hresp] at hfj; simpa [retriedFailure] using hfj
          rw [geocodeAddress.eq_def, hresp]
          simp only [dif_pos (And.intro hj hs), hrec]
          rw [List.range_succ_eq_map, List.map_cons, List.map_map]
          simp [hresp, failWait, Function.comp_def, hshift]
      | exn m =>
          rw [geocodeAddress.eq_def, hresp]
          simp only [hj, dif_pos, hrec]
          rw [List.range_succ_eq_map, List.map_cons, List.map_map]
          simp [hresp, failWait, Function.comp_def, hshift]

/-- Prepends one retried failure at counter `retry` to a retry chain
starting at `retry + 1` that ends in an OK non-empty response. -/
theorem chain_shift (resp : Nat → ApiResponse) (retry : Nat) (r : GeoResult)
    (k2 : Nat) (rest : List GeoResult) (hlt : retry < MAX_RETRIES)
    (h0 : retriedFailure (resp retry) = true)
    (hdisj : k2 = 0 ∨ retry + 1 + k2 ≤ MAX_RETRIES)
    (hfailc : ∀ i, i < k2 → retriedFailure (resp (retry + 1 + i)) = true)
    (hsuccc : resp (retry + 1 + k2) = ApiResponse.success (r :: rest)) :
    ∃ k rest2, (k = 0 ∨ retry + k ≤ MAX_RETRIES) ∧
      (∀ i, i < k → retriedFailure (resp (retry + i)) = true) ∧
      resp (retry + k) = ApiResponse.success (r :: rest2) := by
  refine ⟨k2 + 1, rest, Or.inr ?_, ?_, ?_⟩
  · rcases hdisj with h | h <;> omega
  · intro i hi
    cases i with
    | zero => simpa using h0
    | succ j =>
        have hj := hfailc j (by omega)
        rw [show retry + (j + 1) = retry + 1 + j by omega]
        exact hj
  · rw [show retry + (k2 + 1) = retry + 1 + k2 by omega]
    exact hsuccc

/-- If `geocodeAddress` reports SUCCESS with payload `r`, the run reached,
after a chain of retried failures within budget, a response with status OK
and a non-empty results list headed by `r`. -/
theorem geocode_success_chain (d : Nat) :
    ∀ (resp : Nat → ApiResponse) (retry : Nat),
    MAX_RETRIES + 1 - retry ≤ d →
    ∀ r, (geocodeAddress resp retry).1 = GeoReturn.success r →
    ∃ k rest, (k = 0 ∨ retry + k ≤ MAX_RETRIES) ∧
      (∀ i, i < k → retriedFailure (resp (retry + i)) = true) ∧
      resp (retry + k) = ApiResponse.success (r :: rest) := by
  induction d with
  | zero =>
      intro resp retry hd r h
      have hge : ¬ retry < MAX_RETRIES := by
        simp only [MAX_RETRIES] at hd ⊢; omega
      rw [geocodeAddress.eq_def] at h
      cases hresp : resp retry with
      | success results =>
          cases results with
          | nil => rw [hresp] at h; simp [hge] at h
          | cons a as =>
              rw [hresp] at h
              simp only at h
              injection h with h2
              exact ⟨0, as, Or.inl rfl,
                fun i hi => absurd hi (Nat.not_lt_zero i),
                by rw [Nat.add_zero, hresp, h2]⟩
      | errStatus s m =>
          rw [hresp] at h
          simp [hge] at h
      | exn m =>
          rw [hresp] at h
          simp [hge] at h
  | succ d ih =>
      intro resp retry hd r h
      rw [geocodeAddress.eq_def] at h
      cases hresp : resp retry with
      | success results =>
          cases results with
          | nil =>
              rw [hresp] at h
              by_cases hlt : retry < MAX_RETRIES
              · simp only [hlt, dif_pos] at h
                obtain ⟨k2, rest, hdisj, hfailc, hsuccc⟩ :=
                  ih resp (retry + 1)
                    (by simp only [MAX_RETRIES] at hd ⊢; omega) r h
                exact chain_shift resp retry r k2 rest hlt
                  (by rw [hresp]; rfl) hdisj hfailc hsuccc
              · simp [hlt] at h
          | cons a as =>
              rw [hresp] at h
              simp only at h
              injection h with h2
              exact ⟨0, as, Or.inl rfl,
                fun i hi => absurd hi (Nat.not_lt_zero i),
                by rw [Nat.add_zero, hresp, h2]⟩
      | errStatus s m =>
          rw [hresp] at h
          by_cases hc : retry < MAX_RETRIES ∧ retryableStatus s = true
          · simp only [hc, dif_pos] at h
            obtain ⟨k2, rest, hdisj, hfailc, hsuccc⟩ :=
              ih resp (retry + 1)
                (by simp only [MAX_RETRIES] at hd ⊢; omega) r h
            exact chain_shift resp retry r k2 rest hc.1
              (by rw [hresp]; simpa [retriedFailure] using hc.2)
              hdisj hfailc hsuccc
          · simp [hc] at h
      | exn m =>
          rw [hresp] at h
          by_cases hlt : retry < MAX_RETRIES
          · simp only [hlt, dif_pos] at h
            obtain ⟨k2, rest, hdisj, hfailc, hsuccc⟩ :=
              ih resp (retry + 1)
                (by simp only [MAX_RETRIES] at hd ⊢; omega) r h
            exact chain_shift resp retry r k2 rest hlt
              (by rw [hresp]; rfl) hdisj hfailc hsuccc
          · simp [hlt] at h

/-! ## Claim C1 -/

/-- C1 counterexample: with the two persisted checkpoint files
`[rowMainStMilano]` and `[rowMainStRoma]`, the merged final dataset
contains two rows with the natural key `123 Main St` — the Merger does not
deduplicate, so the claimed at-most-one-per-key invariant fails. -/
theorem C1_counterexample :
    (((merge_temp_files [some [rowMainStMilano], some [rowMainStRoma]]).getD []).filter
      (fun r => naturalKey r == "123 Main St")).length = 2 := by
  simp [merge_temp_files, naturalKey, rowMainStMilano, rowMainStRoma]

/-- C1 (amended): for every collection of persisted per-chunk checkpoint
files with at least one readable file, the Merger's output is exactly the
concatenation of all readable checkpoint rows — every row is kept, so the
output may contain more than one row per natural key. -/
theorem C1_amended (files : List (Option (List StoreRow)))
    (h : files.filterMap id ≠ []) :
    merge_temp_files files = some (files.filterMap id).flatten := by
  have h0 : files ≠ [] := by rintro rfl; exact h rfl
  have h1 : files.isEmpty = false := by
    simpa [List.isEmpty_iff] using h0
  have h2 : (files.filterMap id).isEmpty = false := by
    simpa [List.isEmpty_iff] using h
  simp [merge_temp_files, h1, h2]

/-- C1 witness: the amended merger law evaluated on one concrete
checkpoint file. -/
theorem C1_amended_witness :
    merge_temp_files [some [rowMainStMilano]] = some [rowMainStMilano] := by
  have h := C1_amended [some [rowMainStMilano]] (by simp)
  simpa using h

/-! ## Claim C2 -/

/-- C2 counterexample: two exception-path transient failures (timeouts)
followed by a success produce the success after 3 attempts, but the wait
before retry 0 is the flat 1 s (`10` deciseconds) of the exception
handler, not `base * 2 ^ 0 = 0.5` s (`5` deciseconds) as claimed. -/
theorem C2_counterexample :
    geocodeAddress respExnTwice 0 = (GeoReturn.success geoR0, 3, [10, 10]) ∧
    (10 : Nat) ≠ 5 * 2 ^ 0 := by
  constructor
  · simp [geocodeAddress, respExnTwice, MAX_RETRIES]
  · decide

/-- C2 (amended): for every operation wrapped by the retry controller and
every `k ≤ MAX_RETRIES`, if the operation fails `k` times with failures
the controller retries and then succeeds, the final reported outcome is
the success and exactly `k + 1` attempts are performed; the wait before
retry `i` is `0.5 * 2 ^ i` s (`5 * 2 ^ i` deciseconds) when failure `i`
is a retryable API status (OVER_QUERY_LIMIT / UNKNOWN_ERROR), and a flat
1 s (`10` deciseconds) when failure `i` is an exception or an empty OK
results list. -/
theorem C2_amended (resp : Nat → ApiResponse) (k : Nat) (r : GeoResult)
    (rest : List GeoResult) (hk : k ≤ MAX_RETRIES)
    (hfail : ∀ i, i < k → retriedFailure (resp i) = true)
    (hsucc : resp k = ApiResponse.success (r :: rest)) :
    geocodeAddress resp 0
      = (GeoReturn.success r, k + 1,
         (List.range k).map (fun i => failWait (resp i) i)) := by
  have h := geocode_run_of_retried k resp 0 r rest (by omega)
    (fun i _ hi => hfail i (by omega))
    (by simpa using hsucc)
  simpa using h

/-- C2 witness: one OVER_QUERY_LIMIT failure then success — outcome is
the success, 2 attempts, and the single wait is `5 * 2 ^ 0 = 5`
deciseconds (0.5 s). -/
theorem C2_amended_witness :
    geocodeAddress respOqlOnce 0 = (GeoReturn.success geoR0, 2, [5]) := by
  have h := C2_amended respOqlOnce 1 geoR0 []
    (by simp [MAX_RETRIES])
    (by
      intro i hi
      interval_cases i
      simp [respOqlOnce, retriedFailure, retryableStatus])
    (by simp [respOqlOnce])
  simpa [respOqlOnce, failWait] using h

/-! ## Claim C3 -/

/-- C3 counterexample: the unrecognized status REQUEST_DENIED is returned
as a terminal FAILED dictionary after a single attempt, with the whole
retry budget remaining — unrecognized statuses are not retried. -/
theorem C3_counterexample :
    geocodeAddress (fun _ => ApiResponse.errStatus "REQUEST_DENIED" "denied") 0
      = (GeoReturn.failed "REQUEST_DENIED" "denied", 1, []) ∧
    0 < MAX_RETRIES := by
  constructor
  · simp [geocodeAddress, retryableStatus, MAX_RETRIES]
  · decide

/-- C3 (amended): the geocoding lookup retries a non-OK status exactly
when the status is OVER_QUERY_LIMIT or UNKNOWN_ERROR and budget remains;
every other status — ZERO_RESULTS and all unrecognized statuses included —
is terminal: the FAILED dictionary is returned at once and no retry is
ever attempted. -/
theorem C3_amended (resp : Nat → ApiResponse) (retry : Nat) (s m : String)
    (h : resp retry = ApiResponse.errStatus s m) :
    (retryableStatus s = false →
      geocodeAddress resp retry = (GeoReturn.failed s m, 1, [])) ∧
    (retryableStatus s = true → retry < MAX_RETRIES →
      (geocodeAddress resp retry).2.1
        = (geocodeAddress resp (retry + 1)).2.1 + 1) ∧
    retryableStatus "ZERO_RESULTS" = false ∧
    retryableStatus "OVER_QUERY_LIMIT" = true ∧
    retryableStatus "UNKNOWN_ERROR" = true := by
  refine ⟨?_, ?_, by decide, by decide, by decide⟩
  · intro hs
    rw [geocodeAddress.eq_def, h]
    simp [hs]
  · intro hs hlt
    rw [geocodeAddress.eq_def, h]
    simp [hs, hlt]

/-- C3 witness: ZERO_RESULTS at the first attempt is terminal — the FAILED
dictionary is returned after exactly one attempt. -/
theorem C3_amended_witness :
    geocodeAddress (fun _ => ApiResponse.errStatus "ZERO_RESULTS" "") 0
      = (GeoReturn.failed "ZERO_RESULTS" "", 1, []) :=
  (C3_amended (fun _ => ApiResponse.errStatus "ZERO_RESULTS" "") 0
    "ZERO_RESULTS" "" rfl).1 (by decide)

/-! ## Claim C4 -/

/-- C4 counterexample: the geocoder's per-batch checkpoint save
(src/shop_geocode.py lines 142-144) writes the final output path directly
— its trace contains a non-atomic write of the final location, so not
every checkpoint write goes through a temporary file plus atomic rename. -/
theorem C4_counterexample :
    atomicAt OUTPUT_CSV
      (geocode_checkpoint_ops [{ address := "Via Roma 1", geocodeStatus := "SUCCESS" }])
      = false := by
  simp [atomicAt, geocode_checkpoint_ops, writesFinalDirectly]

/-- C4 (amended): the store scraper's per-chunk checkpoint writes
(`save_temp_results`) do write the full content to a temporary location
and atomically replace it into the final location — no operation in the
trace writes the final path directly — and re-processing the same chunk
against any prior filesystem leaves exactly the new rows at the final
path (overwrite, never append); the geocoder's per-batch intermediate
saves, however, write the output path directly without a temporary
file. -/
theorem C4_amended (city : String) (stores : List StoreRow)
    (fs : Fs StoreRow) (hne : stores ≠ []) :
    (atomicAt (temp_file city) (save_temp_results_ops city stores) = true ∧
     fsGet (applyOps fs (save_temp_results_ops city stores)) (temp_file city)
       = some stores) ∧
    (∀ rows : List GeocodedRow,
      atomicAt OUTPUT_CSV (geocode_checkpoint_ops rows) = false) := by
  have hse : stores.isEmpty = false := by
    simpa [List.isEmpty_iff] using hne
  refine ⟨⟨?_, ?_⟩, ?_⟩
  · simp [atomicAt, save_temp_results_ops, hse, writesFinalDirectly,
      tmp_ne_final]
  · simp only [applyOps, save_temp_results_ops, hse, Bool.false_eq_true,
      if_false, List.foldl_cons, List.foldl_nil, applyOp]
    rw [fsGet_fsSet_self]
    exact fsGet_fsSet_self _ _ _
  · intro rows
    simp [atomicAt, geocode_checkpoint_ops, writesFinalDirectly]

/-- C4 witness: a concrete chunk checkpoint write for Milano is atomic at
its final path and overwrites an existing stale checkpoint wholesale. -/
theorem C4_amended_witness :
    (atomicAt (temp_file "Milano")
        (save_temp_results_ops "Milano" [rowMainStMilano]) = true ∧
     fsGet (applyOps [(temp_file "Milano", [rowMainStRoma])]
        (save_temp_results_ops "Milano" [rowMainStMilano])) (temp_file "Milano")
       = some [rowMainStMilano]) ∧
    (∀ rows : List GeocodedRow,
      atomicAt OUTPUT_CSV (geocode_checkpoint_ops rows) = false) :=
  C4_amended "Milano" [rowMainStMilano]
    [(temp_file "Milano", [rowMainStRoma])] (by simp)

/-! ## Claim C5 -/

/-- C5 counterexample: when the first extraction attempt raises after the
driver was created and the second attempt succeeds, driver 0 is quit by
the except handler and again by the finally block — the release is invoked
twice for the same resource. -/
theorem C5_counterexample :
    ((scrape_dpiu_stores bxRaiseThenFound).2.quits.count 0 = 2) := by
  have h : (scrape_dpiu_stores bxRaiseThenFound).2.quits = [0, 0, 1] := by
    simp [scrape_dpiu_stores, scrapeLoop, bxRaiseThenFound, quitIfSome,
      newDriver, MAX_SCRAPE_RETRIES]
  rw [h]
  decide

/-- C5 (amended): for every behaviour of the extraction session, every
driver created during `scrape_dpiu_stores` is released at least once —
the resource is never leaked on any terminal path — and the driver of an
iteration that ends in success or in no-results is released exactly once,
whether that iteration is the first attempt (the quit log is then
exactly `[0]`) or follows a failed first attempt; on exception paths,
however, the release is invoked more than once for the same driver. -/
theorem C5_amended (bx : Nat → AttemptBx) :
    (∀ d, d < (scrape_dpiu_stores bx).2.nextId →
        d ∈ (scrape_dpiu_stores bx).2.quits) ∧
    ((∃ s, bx 0 = AttemptBx.found s) ∨ bx 0 = AttemptBx.noResults →
        (scrape_dpiu_stores bx).2.quits = [0]) ∧
    ((bx 0 = AttemptBx.setupFail ∨ bx 0 = AttemptBx.raiseAfterSetup) →
     ((∃ s, bx 1 = AttemptBx.found s) ∨ bx 1 = AttemptBx.noResults) →
        ((scrape_dpiu_stores bx).2.quits).count
          ((scrape_dpiu_stores bx).2.nextId - 1) = 1) := by
  cases h0 : bx 0 with
  | setupFail =>
      cases h1 : bx 1 <;>
        refine ⟨?_, ?_, ?_⟩ <;>
          simp [scrape_dpiu_stores, scrapeLoop, h0, h1, quitIfSome,
            newDriver, MAX_SCRAPE_RETRIES]
  | raiseAfterSetup =>
      cases h1 : bx 1 <;>
        refine ⟨?_, ?_, ?_⟩ <;>
          simp [scrape_dpiu_stores, scrapeLoop, h0, h1, quitIfSome,
            newDriver, MAX_SCRAPE_RETRIES] <;>
          omega
  | noResults =>
      refine ⟨?_, ?_, ?_⟩ <;>
        simp [scrape_dpiu_stores, scrapeLoop, h0, quitIfSome,
          newDriver, MAX_SCRAPE_RETRIES]
  | found s =>
      refine ⟨?_, ?_, ?_⟩ <;>
        simp [scrape_dpiu_stores, scrapeLoop, h0, quitIfSome,
          newDriver, MAX_SCRAPE_RETRIES]

/-- C5 witness: a failed first attempt followed by a no-results second
attempt — driver 1, created by the terminal no-results iteration, is
released exactly once (while the log also records the double release of
driver 0); and an immediately successful session has quit log `[0]`. -/
theorem C5_amended_witness :
    ((scrape_dpiu_stores (fun rc =>
        if rc = 0 then AttemptBx.raiseAfterSetup else AttemptBx.noResults)).2.quits).count
      ((scrape_dpiu_stores (fun rc =>
        if rc = 0 then AttemptBx.raiseAfterSetup else AttemptBx.noResults)).2.nextId - 1)
      = 1 ∧
    (scrape_dpiu_stores (fun _ => AttemptBx.found [rowMainStMilano])).2.quits
      = [0] := by
  constructor
  · exact (C5_amended (fun rc =>
      if rc = 0 then AttemptBx.raiseAfterSetup else AttemptBx.noResults)).2.2
      (Or.inr rfl) (Or.inr rfl)
  · exact (C5_amended (fun _ => AttemptBx.found [rowMainStMilano])).2.1
      (Or.inl ⟨[rowMainStMilano], rfl⟩)

/-! ## Claim C6 -/

/-- C6 counterexample: a run in which the input loads fine but
`setup_driver()` fails aborts the whole run with a cause that is neither a
task-source load failure nor a storage failure. -/
theorem C6_counterexample :
    flyer_main { loadOk := true, rows := [], setupOk := false,
                 makedirsOk := true, primarySaveOk := true,
                 fallbackSaveOk := true }
      = RunOutcome.aborted AbortCause.driverInitFailure ∧
    AbortCause.driverInitFailure ≠ AbortCause.loadFailure ∧
    AbortCause.driverInitFailure ≠ AbortCause.storageFailure := by
  refine ⟨by simp [flyer_main], by decide, by decide⟩

/-- C6 (amended): every item-level failure is captured locally as a
recorded status value (`process_store` is total and always tags its result
success / No flyers / error); a run aborts only on a task-source load
failure, a driver initialization failure, or a storage failure at the
final save (the `os.makedirs` step outside the internal `try` of
`save_results`); and CSV-write storage failures alone never abort — with
the primary and the fallback write both failing, the run still completes
with the results logged. -/
theorem C6_amended (w : RunWorld) :
    (∀ (b : ItemBx) (r : FlyerRow),
        (process_store b r).status = "success" ∨
        (process_store b r).status = "No flyers" ∨
        (process_store b r).status = "error") ∧
    (∀ c, flyer_main w = RunOutcome.aborted c →
        c = AbortCause.loadFailure ∨ c = AbortCause.driverInitFailure ∨
        c = AbortCause.storageFailure) ∧
    (w.loadOk = true → w.setupOk = true → w.makedirsOk = false →
        flyer_main w = RunOutcome.aborted AbortCause.storageFailure) ∧
    (w.loadOk = true → w.setupOk = true → w.makedirsOk = true →
        flyer_main w = RunOutcome.completed
          (w.rows.map (fun p => process_store p.2 p.1))
          (if w.primarySaveOk then SaveOutcome.savedPrimary
           else if w.fallbackSaveOk then SaveOutcome.savedFallback
           else SaveOutcome.loggedOnly)) := by
  refine ⟨?_, ?_, ?_, ?_⟩
  · intro b r
    cases b with
    | noCarousel => simp [process_store]
    | flyers pdfs =>
        by_cases hp : pdfs.isEmpty <;> simp [process_store, hp]
    | raiseOuter m => simp [process_store]
  · intro c _
    cases c with
    | loadFailure => exact Or.inl rfl
    | driverInitFailure => exact Or.inr (Or.inl rfl)
    | storageFailure => exact Or.inr (Or.inr rfl)
  · intro hl hs hm
    simp [flyer_main, hl, hs, save_results, hm]
  · intro hl hs hm
    by_cases hp : w.primarySaveOk <;> by_cases hf : w.fallbackSaveOk <;>
      simp [flyer_main, hl, hs, save_results, hm, hp, hf]

/-- C6 witness: a concrete makedirs failure at the final save aborts the
run with a storage cause, while a run whose primary and fallback CSV
writes both fail still completes (results are logged instead). -/
theorem C6_amended_witness :
    flyer_main { loadOk := true, rows := [], setupOk := true,
                 makedirsOk := false, primarySaveOk := true,
                 fallbackSaveOk := true }
      = RunOutcome.aborted AbortCause.storageFailure ∧
    flyer_main { loadOk := true, rows := [], setupOk := true,
                 makedirsOk := true, primarySaveOk := false,
                 fallbackSaveOk := false }
      = RunOutcome.completed [] SaveOutcome.loggedOnly := by
  constructor
  · exact (C6_amended
      { loadOk := true, rows := [], setupOk := true, makedirsOk := false,
        primarySaveOk := true, fallbackSaveOk := true }).2.2.1 rfl rfl rfl
  · have h := (C6_amended
      { loadOk := true, rows := [], setupOk := true, makedirsOk := true,
        primarySaveOk := false, fallbackSaveOk := false }).2.2.2 rfl rfl rfl
    simpa using h

/-! ## Claim C8 -/

/-- C8 counterexample: with two records sharing the natural key
`456 Oak Ave` in different chunks, the record from the higher chunk is
also present in the merged output — the Merger does not keep only the
first-seen record per key. -/
theorem C8_counterexample :
    rowOakBari ∈ (merge_temp_files [some [rowOakTorino], some [rowOakBari]]).getD [] ∧
    naturalKey rowOakBari = naturalKey rowOakTorino ∧
    rowOakBari ≠ rowOakTorino := by
  refine ⟨?_, rfl, by decide⟩
  simp [merge_temp_files]

/-- C8 (amended): for every pair of records sharing the same natural key
that arrive in different chunks, the Merger keeps both records (it
performs no per-key selection at all); the keep-first-per-key behaviour
exists only in the details stage's input deduplication
(`drop_duplicates(keep=first)`), which keeps the first occurrence in row
order and drops the later duplicate. -/
theorem C8_amended (c1 c2 : List StoreRow) (r1 r2 : StoreRow)
    (l : List StoreRow) (h1 : r1 ∈ c1) (h2 : r2 ∈ c2)
    (hk : naturalKey r1 = naturalKey r2) (hne : r2 ≠ r1) :
    (r1 ∈ (merge_temp_files [some c1, some c2]).getD [] ∧
     r2 ∈ (merge_temp_files [some c1, some c2]).getD []) ∧
    ((drop_duplicates naturalKey (r1 :: l)).head? = some r1 ∧
     r2 ∉ drop_duplicates naturalKey (r1 :: l)) := by
  have hm : merge_temp_files [some c1, some c2] = some (c1 ++ (c2 ++ [])) := by
    simp [merge_temp_files]
  refine ⟨⟨?_, ?_⟩, ?_, ?_⟩
  · rw [hm]
    simpa using Or.inl h1
  · rw [hm]
    simpa using Or.inr h2
  · rw [drop_duplicates]
    rfl
  · intro hmem
    rw [drop_duplicates] at hmem
    rcases List.mem_cons.mp hmem with hh | ht
    · exact hne hh
    · have hin := mem_of_mem_dd naturalKey _ _ ht
      have hp := List.of_mem_filter hin
      rw [← hk] at hp
      simp at hp

/-- C8 witness: concrete two-chunk run — the merger keeps both Oak-Ave
records, while the details-stage deduplication keeps only the first. -/
theorem C8_amended_witness :
    (rowOakTorino ∈ (merge_temp_files [some [rowOakTorino], some [rowOakBari]]).getD [] ∧
     rowOakBari ∈ (merge_temp_files [some [rowOakTorino], some [rowOakBari]]).getD []) ∧
    ((drop_duplicates naturalKey (rowOakTorino :: [rowOakBari])).head?
        = some rowOakTorino ∧
     rowOakBari ∉ drop_duplicates naturalKey (rowOakTorino :: [rowOakBari])) :=
  C8_amended [rowOakTorino] [rowOakBari] rowOakTorino rowOakBari [rowOakBari]
    (by simp) (by simp) rfl (by decide)

/-! ## Claim C9 -/

/-- C9 counterexample: on an input with two valid rows and one row with a
null Store URL, the count the loader reports is 2 — the number of
surviving valid rows — while the number of dropped rows is 1; the dropped
count is not what is reported. -/
theorem C9_counterexample :
    (load_store_data rowsC9).2 = 2 ∧
    rowsC9.length - (load_store_data rowsC9).1.length = 1 ∧
    (2 : Nat) ≠ 1 := by
  refine ⟨?_, ?_, by decide⟩
  · simp [load_store_data, rowsC9, dropnaRow]
  · simp [load_store_data, rowsC9, dropnaRow]

/-- C9 (amended): the task-source load drops every row with a null
identity or null query field, dispatches only null-free rows, and reports
a count — the count of the remaining valid rows, not of the dropped
rows. -/
theorem C9_amended (rows : List InputRow) :
    (load_store_data rows).1 = rows.filter dropnaRow ∧
    (∀ r, r ∈ (load_store_data rows).1 →
        r.shopId.isSome = true ∧ r.storeUrl.isSome = true) ∧
    (load_store_data rows).2 = (load_store_data rows).1.length := by
  refine ⟨rfl, ?_, rfl⟩
  intro r hr
  simp only [load_store_data] at hr
  have hp := List.of_mem_filter hr
  simpa [dropnaRow] using hp

/-- C9 witness: the dispatch guarantee applied to the concrete first
surviving row of the sample input. -/
theorem C9_amended_witness :
    ({ shopId := some "s1", storeUrl := some "u1" } : InputRow).shopId.isSome = true ∧
    ({ shopId := some "s1", storeUrl := some "u1" } : InputRow).storeUrl.isSome = true :=
  (C9_amended rowsC9).2.1 _ (by decide)

/-! ## Claim C10 -/

/-- C10 counterexample: a response whose status is OK but whose results
list is empty makes `geocode_address` return the ERROR dictionary (the
IndexError path), not SUCCESS — so `geocode_status = SUCCESS` does not
hold exactly when the response status is OK. -/
theorem C10_counterexample :
    (geocodeAddress (fun _ => ApiResponse.success []) 0).1.geocodeStatus
      = "ERROR: list index out of range" ∧
    (geocodeAddress (fun _ => ApiResponse.success []) 0).1.geocodeStatus
      ≠ "SUCCESS" := by
  have h : geocodeAddress (fun _ => ApiResponse.success []) 0
      = (GeoReturn.error "list index out of range", 4, [10, 10, 10]) := by
    simp [geocodeAddress, MAX_RETRIES]
  rw [h]
  exact ⟨rfl, by decide⟩

/-- C10 (amended): for every address environment and starting retry
count, the returned dictionary always carries a `geocode_status` that is
either SUCCESS or begins with `FAILED: ` or with `ERROR: ` (the function
is total — no exception reaches the caller), and the result is SUCCESS
with payload `r` exactly when the run reaches, after a chain of retried
failures within the retry budget, a response with status OK and a
non-empty results list headed by `r`. -/
theorem C10_amended (resp : Nat → ApiResponse) (retry : Nat) :
    ((geocodeAddress resp retry).1.geocodeStatus = "SUCCESS" ∨
     (∃ t, (geocodeAddress resp retry).1.geocodeStatus = "FAILED: " ++ t) ∨
     (∃ t, (geocodeAddress resp retry).1.geocodeStatus = "ERROR: " ++ t)) ∧
    (∀ r, (geocodeAddress resp retry).1 = GeoReturn.success r ↔
        ∃ k rest, (k = 0 ∨ retry + k ≤ MAX_RETRIES) ∧
          (∀ i, i < k → retriedFailure (resp (retry + i)) = true) ∧
          resp (retry + k) = ApiResponse.success (r :: rest)) := by
  constructor
  · cases hg : (geocodeAddress resp retry).1 with
    | success r => exact Or.inl rfl
    | failed s m =>
        refine Or.inr (Or.inl ⟨s ++ (": " ++ m), ?_⟩)
        simp [GeoReturn.geocodeStatus, String.append_assoc]
    | error m => exact Or.inr (Or.inr ⟨m, rfl⟩)
  · intro r
    constructor
    · exact fun h =>
        geocode_success_chain (MAX_RETRIES + 1 - retry) resp retry le_rfl r h
    · rintro ⟨k, rest, hdisj, hfail, hsucc⟩
      cases k with
      | zero =>
          rw [geocodeAddress.eq_def]
          simp only [Nat.add_zero] at hsucc
          rw [hsucc]
      | succ k =>
          have hk : retry + (k + 1) ≤ MAX_RETRIES := by
            rcases hdisj with h | h
            · exact absurd h (by omega)
            · exact h
          have heq := geocode_run_of_retried (k + 1) resp retry r rest hk
            (fun i hi1 hi2 => by
              have hf := hfail (i - retry) (by omega)
              rwa [show retry + (i - retry) = i by omega] at hf)
            hsucc
          rw [heq]

/-- C10 witness: via the backward direction of the characterization, a
concrete run — one OVER_QUERY_LIMIT failure then an OK response carrying
`geoR0` — reports SUCCESS with that payload. -/
theorem C10_amended_witness :
    (geocodeAddress respOqlOnce 0).1 = GeoReturn.success geoR0 :=
  ((C10_amended respOqlOnce 0).2 geoR0).mpr
    ⟨1, [], Or.inr (by simp [MAX_RETRIES]),
     fun i hi => by
       interval_cases i
       simp [respOqlOnce, retriedFailure, retryableStatus],
     rfl⟩
